import Mathlib

set_option linter.unusedVariables false

namespace ContactsApp

/-- User row of the `user` table (spec §3 data model; the fields assigned in
`UserManager.create` in `app/main.py`): integer primary key, email (unique),
hashed password, active and superuser flags, optional avatar URL. -/
structure User where
  id : Nat
  email : String
  hashed_password : String
  is_active : Bool
  is_superuser : Bool
  avatar : Option String
deriving DecidableEq

/-- Contact row of the `contacts` table (`class Contact` in `app/main.py`):
integer primary key, name/email/phone strings, birthday (dates are embedded as
natural numbers), optional free-text note, owner foreign key. -/
structure Contact where
  id : Nat
  first_name : String
  last_name : String
  email : String
  phone_number : String
  birthday : Nat
  additional_info : Option String
  owner_id : Nat
deriving DecidableEq

/-- Request/response schema `ContactCreate` (`app/main.py`): the six contact
fields and nothing else — no identifier, no owner reference. -/
structure ContactCreate where
  first_name : String
  last_name : String
  email : String
  phone_number : String
  birthday : Nat
  additional_info : Option String
deriving DecidableEq

/-- `class ContactUpdate(ContactCreate): pass` — the update schema is the
create schema. -/
abbrev ContactUpdate := ContactCreate

/-- Registration input schema `UserCreate`. -/
structure UserCreate where
  email : String
  password : String
deriving DecidableEq

/-- Output schema `UserRead` (`app/main.py`): id, email and avatar only; the
hashed password is not a field of this schema. -/
structure UserRead where
  id : Nat
  email : String
  avatar : Option String
deriving DecidableEq

/-- An HTTP error response, as raised via `HTTPException(status_code, detail)`. -/
structure HTTPException where
  status_code : Nat
  detail : String
deriving DecidableEq

def contactNotFound : HTTPException := ⟨404, "Contact not found"⟩

def emailConflict : HTTPException := ⟨409, "User with this email already exists"⟩

def unauthorizedErr : HTTPException := ⟨401, "Unauthorized"⟩

/-- The persistent database state: the `user` and `contacts` tables, kept in
row-insertion order, together with the autoincrement counters that supply the
next primary keys. -/
structure AppDB where
  users : List User
  contacts : List Contact
  next_user_id : Nat
  next_contact_id : Nat
deriving DecidableEq

def emptyDB : AppDB := ⟨[], [], 1, 1⟩

/-- Replace the first element satisfying `p` by its image under `g`; models an
ORM mutation of the single row object returned by `.first()`. -/
def replaceFirst {α : Type} (p : α → Bool) (g : α → α) : List α → List α
  | [] => []
  | x :: xs => if p x then g x :: xs else x :: replaceFirst p g xs

/-- Remove the first element satisfying `p`; models `db.delete(obj)` for the
single row object returned by `.first()`. -/
def removeFirst {α : Type} (p : α → Bool) : List α → List α
  | [] => []
  | x :: xs => if p x then xs else x :: removeFirst p xs

/-- The owner-scoped lookup shared by the Get/Update/Delete handlers:
`db.query(Contact).filter(Contact.id == contact_id, Contact.owner_id == user.id).first()`. -/
def firstOwned (contact_id : Nat) (db : AppDB) (user : User) : Option Contact :=
  db.contacts.find? (fun c => c.id == contact_id && c.owner_id == user.id)

/-- `create_contact` (`app/main.py` lines 171–177): builds a Contact from the
request fields with `owner_id = user.id`, inserts it (the primary key is the
next autoincrement value), commits, and returns the refreshed row. -/
def create_contact (contact : ContactCreate) (db : AppDB) (user : User) :
    AppDB × Contact :=
  let db_contact : Contact :=
    { id := db.next_contact_id, first_name := contact.first_name,
      last_name := contact.last_name, email := contact.email,
      phone_number := contact.phone_number, birthday := contact.birthday,
      additional_info := contact.additional_info, owner_id := user.id }
  ({ db with contacts := db.contacts ++ [db_contact],
             next_contact_id := db.next_contact_id + 1 },
   db_contact)

/-- `read_contacts` (`app/main.py` lines 179–182): the caller's contacts,
offset by `skip` and truncated to `limit`, with the handler's default values
`skip = 0` and `limit = 10`. -/
def read_contacts (db : AppDB) (user : User) (skip : Nat := 0)
    (limit : Nat := 10) : List Contact :=
  ((db.contacts.filter (fun c => c.owner_id == user.id)).drop skip).take limit

/-- `read_contact` (`app/main.py` lines 184–189): owner-scoped lookup; 404
when no matching row exists. -/
def read_contact (contact_id : Nat) (db : AppDB) (user : User) :
    Except HTTPException Contact :=
  match firstOwned contact_id db user with
  | none => .error contactNotFound
  | some contact => .ok contact

/-- The `setattr` loop of `update_contact`: `contact.dict()` for a
`ContactUpdate` has exactly the six schema keys, so exactly these six
attributes of the row are overwritten. -/
def applyUpdate (contact : ContactUpdate) (c : Contact) : Contact :=
  { c with first_name := contact.first_name, last_name := contact.last_name,
           email := contact.email, phone_number := contact.phone_number,
           birthday := contact.birthday,
           additional_info := contact.additional_info }

/-- `update_contact` (`app/main.py` lines 191–200): owner-scoped lookup; 404
when absent; otherwise every key of the request body is written onto the found
row, the session is committed, and the refreshed row is returned. -/
def update_contact (contact_id : Nat) (contact : ContactUpdate) (db : AppDB)
    (user : User) : Except HTTPException (AppDB × Contact) :=
  match firstOwned contact_id db user with
  | none => .error contactNotFound
  | some db_contact =>
    let contacts :=
      replaceFirst (fun c => c.id == contact_id && c.owner_id == user.id)
        (applyUpdate contact) db.contacts
    .ok ({ db with contacts := contacts }, applyUpdate contact db_contact)

/-- `delete_contact` (`app/main.py` lines 202–209): owner-scoped lookup; 404
when absent; otherwise the found row is deleted and the row object, still
holding its prior attribute values, is returned. -/
def delete_contact (contact_id : Nat) (db : AppDB) (user : User) :
    Except HTTPException (AppDB × Contact) :=
  match firstOwned contact_id db user with
  | none => .error contactNotFound
  | some db_contact =>
    let contacts :=
      removeFirst (fun c => c.id == contact_id && c.owner_id == user.id)
        db.contacts
    .ok ({ db with contacts := contacts }, db_contact)

/-- `UserManager.create` (`app/main.py` lines 104–117): hashes the password
(the external `PasswordHelper.hash` is passed in as `hash`), builds a user row
with `is_active = true` and `is_superuser = false`, and inserts it; the
`IntegrityError` raised by the unique email constraint when a row with the
same email already exists is turned into a 409 Conflict, and the failed insert
leaves no row behind (the transaction rolls back). -/
def UserManager.create (hash : String → String) (user : UserCreate)
    (db : AppDB) : Except HTTPException (AppDB × User) :=
  let hashed_password := hash user.password
  let db_user : User :=
    { id := db.next_user_id, email := user.email,
      hashed_password := hashed_password, is_active := true,
      is_superuser := false, avatar := none }
  if db.users.any (fun u => u.email == user.email) then
    .error emailConflict
  else
    .ok ({ db with users := db.users ++ [db_user],
                   next_user_id := db.next_user_id + 1 },
         db_user)

/-- The JWT strategy configuration (`get_jwt_strategy` returns
`JWTStrategy(secret=SECRET, lifetime_seconds=3600)`). -/
structure JWTStrategy where
  secret : String
  lifetime_seconds : Nat
deriving DecidableEq

/-- `get_jwt_strategy` (`app/main.py` lines 88–89): fixed 3600-second
lifetime; the signing secret comes from the environment. -/
def get_jwt_strategy (secret : String) : JWTStrategy :=
  { secret := secret, lifetime_seconds := 3600 }

/-- A signed bearer token: subject user id, expiry timestamp, and the secret
it was signed with. -/
structure Token where
  sub : Nat
  exp : Nat
  signed_with : String
deriving DecidableEq

/-- Modelled from the spec: token issuance by the authentication backend
(the JWT strategy of the external fastapi-users library, configured by
`get_jwt_strategy`, is not part of this repository). The spec: a signed JWT
with a fixed 3600-second lifetime, so the expiry claim is issuance time plus
`lifetime_seconds`. -/
def write_token (strategy : JWTStrategy) (user_id : Nat) (now : Nat) : Token :=
  { sub := user_id, exp := now + strategy.lifetime_seconds,
    signed_with := strategy.secret }

/-- Modelled from the spec: JWT validation — the signature must match the
configured secret and the current time must be before the expiry claim;
otherwise the token is invalid. -/
def read_token (strategy : JWTStrategy) (token : Token) (now : Nat) :
    Option Nat :=
  if token.signed_with == strategy.secret && now < token.exp then
    some token.sub
  else
    none

/-- Modelled from the spec: `ResolveCurrentUser(bearer token)` — validate the
JWT and load the associated user row; Unauthorized when the token is
invalid/expired or the subject does not resolve to a user. Every protected
endpoint depends on this resolution. -/
def current_user (strategy : JWTStrategy) (db : AppDB) (token : Token)
    (now : Nat) : Except HTTPException User :=
  match read_token strategy token now with
  | none => .error unauthorizedErr
  | some uid =>
    match db.users.find? (fun u => u.id == uid) with
    | none => .error unauthorizedErr
    | some u => .ok u

/-- `upload_avatar` (`app/main.py` lines 160–169): forwards the raw bytes to
the external host (`cloudinary.uploader.upload`, embedded as the `uploader`
function), assigns the returned URL to the current user object in memory, and
returns the URL; the handler has no database session and issues no commit, so
the database state passes through unchanged. -/
def upload_avatar (user_id : Nat) (uploader : List Nat → String)
    (file : List Nat) (user : User) (db : AppDB) : User × String × AppDB :=
  let avatar_url := uploader file
  ({ user with avatar := some avatar_url }, avatar_url, db)

/-- Serialization of a user row through the `UserRead` response schema. -/
def serializeUser (u : User) : UserRead :=
  { id := u.id, email := u.email, avatar := u.avatar }

/-- Serialization of a contact row through the `ContactCreate` response schema
(`response_model=ContactCreate` on all five contact endpoints). -/
def serializeContact (c : Contact) : ContactCreate :=
  { first_name := c.first_name, last_name := c.last_name, email := c.email,
    phone_number := c.phone_number, birthday := c.birthday,
    additional_info := c.additional_info }

/-- Sequentially create a list of contacts for one user, returning the final
database state and the created rows in creation order. -/
def createMany : List ContactCreate → AppDB → User → AppDB × List Contact
  | [], db, _ => (db, [])
  | f :: fs, db, u =>
    let r := create_contact f db u
    let rest := createMany fs r.1 u
    (rest.1, r.2 :: rest.2)

/-- Overwrite the contacts table of a database state, leaving the user table
and the autoincrement counters unchanged. -/
def setContacts (db : AppDB) (cs : List Contact) : AppDB :=
  { db with contacts := cs }

def userA : User := ⟨1, "alice@example.com", "hashA", true, false, none⟩

def userB : User := ⟨2, "bob@example.com", "hashB", true, false, none⟩

def contactOfA : Contact :=
  ⟨1, "Ann", "Lee", "ann@example.com", "123456", 19900101, none, 1⟩

def dbAB : AppDB := ⟨[userA, userB], [contactOfA], 3, 2⟩

def someFields : ContactCreate :=
  ⟨"New", "Name", "new@example.com", "999999", 19950505, some "note"⟩

def updatedContactOfA : Contact := applyUpdate someFields contactOfA

def dbABupd : AppDB := ⟨[userA, userB], [updatedContactOfA], 3, 2⟩

def dbABdel : AppDB := ⟨[userA, userB], [], 3, 2⟩

def fs15 : List ContactCreate :=
  List.replicate 15 ⟨"First", "Last", "c@example.com", "555", 19800101, none⟩

theorem find?_some_decomp {α : Type} (p : α → Bool) :
    ∀ (l : List α) (a : α), l.find? p = some a →
      ∃ l₁ l₂, l = l₁ ++ a :: l₂ ∧ (∀ x ∈ l₁, p x = false) ∧ p a = true := by
  intro l
  induction l with
  | nil => intro a h; simp at h
  | cons x xs ih =>
    intro a h
    by_cases hx : p x = true
    · rw [List.find?_cons_of_pos _ hx] at h
      obtain rfl : x = a := Option.some.inj h
      exact ⟨[], xs, rfl, by simp, hx⟩
    · rw [List.find?_cons_of_neg _ (by simpa using hx)] at h
      obtain ⟨l₁, l₂, hl, hfalse, hpa⟩ := ih a h
      refine ⟨x :: l₁, l₂, by rw [hl]; rfl, ?_, hpa⟩
      intro y hy
      rcases List.mem_cons.mp hy with rfl | hy'
      · simpa using hx
      · exact hfalse y hy'

theorem replaceFirst_append {α : Type} (p : α → Bool) (g : α → α)
    (l₁ l₂ : List α) (a : α) (h₁ : ∀ x ∈ l₁, p x = false) (ha : p a = true) :
    replaceFirst p g (l₁ ++ a :: l₂) = l₁ ++ g a :: l₂ := by
  induction l₁ with
  | nil => simp [replaceFirst, ha]
  | cons x xs ih =>
    have hx : p x = false := h₁ x (by simp)
    simp only [List.cons_append, replaceFirst, hx, Bool.false_eq_true,
      if_false, List.cons.injEq, true_and]
    exact ih (fun y hy => h₁ y (by simp [hy]))

theorem removeFirst_append {α : Type} (p : α → Bool) (l₁ l₂ : List α) (a : α)
    (h₁ : ∀ x ∈ l₁, p x = false) (ha : p a = true) :
    removeFirst p (l₁ ++ a :: l₂) = l₁ ++ l₂ := by
  induction l₁ with
  | nil => simp [removeFirst, ha]
  | cons x xs ih =>
    have hx : p x = false := h₁ x (by simp)
    simp only [List.cons_append, removeFirst, hx, Bool.false_eq_true,
      if_false, List.cons.injEq, true_and]
    exact ih (fun y hy => h₁ y (by simp [hy]))

theorem createMany_spec (u : User) :
    ∀ (fs : List ContactCreate) (db : AppDB),
      (createMany fs db u).1.contacts = db.contacts ++ (createMany fs db u).2 ∧
      (createMany fs db u).2.length = fs.length ∧
      (createMany fs db u).1.users = db.users ∧
      ∀ c ∈ (createMany fs db u).2, c.owner_id = u.id := by
  intro fs
  induction fs with
  | nil => intro db; simp [createMany]
  | cons f fs ih =>
    intro db
    obtain ⟨h1, h2, h3, h4⟩ := ih (create_contact f db u).1
    refine ⟨?_, ?_, ?_, ?_⟩
    · show (createMany fs (create_contact f db u).1 u).1.contacts = _
      rw [h1]
      simp [create_contact, createMany]
    · simpa [createMany] using h2
    · simpa [createMany, create_contact] using h3
    · intro c hc
      simp only [createMany, List.mem_cons] at hc
      rcases hc with rfl | hc
      · rfl
      · exact h4 c hc

/-- Claim C1: for every authenticated user `u` and contact id `cid`, if no
stored contact both has id `cid` and is owned by `u` — in particular when the
contact does not exist, or when it is owned by some other user (contact ids
are primary keys, so a contact of user A with id `cid` excludes any contact
of user B with that id) — then Get, Update and Delete each fail with the same
404 NotFound, regardless of the caller's (valid) token. -/
theorem ownership_scoped_not_found (db : AppDB) (u : User) (cid : Nat)
    (f : ContactUpdate)
    (h : ∀ c ∈ db.contacts, c.id = cid → c.owner_id ≠ u.id) :
    read_contact cid db u = .error contactNotFound ∧
    update_contact cid f db u = .error contactNotFound ∧
    delete_contact cid db u = .error contactNotFound := by
  have hfind : firstOwned cid db u = none := by
    rw [firstOwned, List.find?_eq_none]
    intro c hc
    simp only [Bool.and_eq_true, beq_iff_eq, not_and]
    exact fun hid => h c hc hid
  refine ⟨?_, ?_, ?_⟩ <;>
    simp [read_contact, update_contact, delete_contact, hfind]

theorem ownership_scoped_not_found_witness :
    read_contact 1 dbAB userB = .error contactNotFound ∧
    update_contact 1 someFields dbAB userB = .error contactNotFound ∧
    delete_contact 1 dbAB userB = .error contactNotFound :=
  ownership_scoped_not_found dbAB userB 1 someFields (by decide)

/-- Claim C2: registering an email that is free succeeds and leaves exactly
one user row with that email; a second registration of the same email fails
with 409 Conflict, and the failure produces no new state — the database after
the failed attempt is still the one with exactly one row for that email. -/
theorem register_duplicate_conflict (hash : String → String)
    (e p₁ p₂ : String) (db : AppDB)
    (h : db.users.any (fun u => u.email == e) = false) :
    ∃ db₁ u₁,
      UserManager.create hash ⟨e, p₁⟩ db = .ok (db₁, u₁) ∧
      UserManager.create hash ⟨e, p₂⟩ db₁ = .error emailConflict ∧
      db₁.users.countP (fun u => u.email == e) = 1 := by
  have h0 : db.users.countP (fun u => u.email == e) = 0 := by
    rw [List.countP_eq_zero]
    simpa using List.any_eq_false.mp h
  refine ⟨⟨db.users ++ [⟨db.next_user_id, e, hash p₁, true, false, none⟩],
            db.contacts, db.next_user_id + 1, db.next_contact_id⟩,
          ⟨db.next_user_id, e, hash p₁, true, false, none⟩, ?_, ?_, ?_⟩
  · rw [UserManager.create]
    simp only [h, Bool.false_eq_true, if_false]
  · rw [UserManager.create]
    simp
  · simp [List.countP_append, h0]

theorem register_duplicate_conflict_witness :
    ∃ db₁ u₁,
      UserManager.create (fun p => p) ⟨"carol@example.com", "pw1"⟩ emptyDB =
        .ok (db₁, u₁) ∧
      UserManager.create (fun p => p) ⟨"carol@example.com", "pw2"⟩ db₁ =
        .error emailConflict ∧
      db₁.users.countP (fun u => u.email == "carol@example.com") = 1 :=
  register_duplicate_conflict (fun p => p) "carol@example.com" "pw1" "pw2"
    emptyDB (by decide)

theorem update_contact_none (cid : Nat) (f : ContactUpdate) (db : AppDB)
    (u : User) (hf : firstOwned cid db u = none) :
    update_contact cid f db u = .error contactNotFound := by
  unfold update_contact
  rw [hf]

theorem update_contact_some (cid : Nat) (f : ContactUpdate) (db : AppDB)
    (u : User) (c0 : Contact) (hf : firstOwned cid db u = some c0) :
    update_contact cid f db u =
      .ok (setContacts db (replaceFirst
            (fun c => c.id == cid && c.owner_id == u.id)
            (applyUpdate f) db.contacts),
          applyUpdate f c0) := by
  unfold update_contact setContacts
  rw [hf]

theorem delete_contact_none (cid : Nat) (db : AppDB) (u : User)
    (hf : firstOwned cid db u = none) :
    delete_contact cid db u = .error contactNotFound := by
  unfold delete_contact
  rw [hf]

theorem delete_contact_some (cid : Nat) (db : AppDB) (u : User) (c0 : Contact)
    (hf : firstOwned cid db u = some c0) :
    delete_contact cid db u =
      .ok (setContacts db (removeFirst
            (fun c => c.id == cid && c.owner_id == u.id) db.contacts),
          c0) := by
  unfold delete_contact setContacts
  rw [hf]

/-- Claim C3: listing is offset/limit pagination over the caller's contacts in
insertion order, with handler defaults skip = 0 and limit = 10 and no upper
bound on limit. After a user creates 15 contacts in an empty database, the
request skip = 10, limit = 10 returns exactly the last 5 created contacts, in
creation order; a limit of 1000 is honoured as given and returns all 15. -/
theorem list_pagination (u : User) (fs : List ContactCreate)
    (h : fs.length = 15) :
    read_contacts (createMany fs emptyDB u).1 u 10 10 =
      ((createMany fs emptyDB u).2).drop 10 ∧
    (((createMany fs emptyDB u).2).drop 10).length = 5 ∧
    read_contacts (createMany fs emptyDB u).1 u 0 1000 =
      (createMany fs emptyDB u).2 ∧
    (∀ (db : AppDB) (v : User), read_contacts db v = read_contacts db v 0 10) := by
  obtain ⟨h1, h2, _h3, h4⟩ := createMany_spec u fs emptyDB
  have hfilter : (createMany fs emptyDB u).1.contacts.filter
      (fun c => c.owner_id == u.id) = (createMany fs emptyDB u).2 := by
    rw [h1]
    have : emptyDB.contacts = [] := rfl
    rw [this, List.nil_append]
    exact List.filter_eq_self.mpr (fun c hc => by simp [h4 c hc])
  have hlen : (createMany fs emptyDB u).2.length = 15 := by rw [h2, h]
  refine ⟨?_, ?_, ?_, fun db v => rfl⟩
  · rw [read_contacts, hfilter]
    exact List.take_of_length_le (by rw [List.length_drop, hlen]; omega)
  · rw [List.length_drop, hlen]
  · rw [read_contacts, hfilter, List.drop_zero]
    exact List.take_of_length_le (by rw [hlen]; omega)

theorem list_pagination_witness :
    read_contacts (createMany fs15 emptyDB userA).1 userA 10 10 =
      ((createMany fs15 emptyDB userA).2).drop 10 ∧
    read_contacts (createMany fs15 emptyDB userA).1 userA =
      read_contacts (createMany fs15 emptyDB userA).1 userA 0 10 :=
  ⟨(list_pagination userA fs15 (by rfl)).1,
   (list_pagination userA fs15 (by rfl)).2.2.2 (createMany fs15 emptyDB userA).1 userA⟩

/-- Claim C4: a successful update of an owned contact replaces all six schema
fields — first name, last name, email, phone number, birthday, optional
note — with the values of the request body, and the returned record carries
exactly those values and is the stored record (it is in the new contacts
table). -/
theorem update_replaces_all_fields (cid : Nat) (f : ContactUpdate)
    (db : AppDB) (u : User) (db' : AppDB) (c' : Contact)
    (h : update_contact cid f db u = .ok (db', c')) :
    c'.first_name = f.first_name ∧ c'.last_name = f.last_name ∧
    c'.email = f.email ∧ c'.phone_number = f.phone_number ∧
    c'.birthday = f.birthday ∧ c'.additional_info = f.additional_info ∧
    c' ∈ db'.contacts := by
  cases hf : firstOwned cid db u with
  | none =>
    rw [update_contact_none cid f db u hf] at h
    simp at h
  | some c0 =>
    rw [update_contact_some cid f db u c0 hf] at h
    simp only [Except.ok.injEq, Prod.mk.injEq] at h
    obtain ⟨hdb, hc⟩ := h
    subst hdb
    subst hc
    have hf' : db.contacts.find?
        (fun c => c.id == cid && c.owner_id == u.id) = some c0 := hf
    obtain ⟨l₁, l₂, hl, hfalse, hpa⟩ := find?_some_decomp _ db.contacts c0 hf'
    refine ⟨rfl, rfl, rfl, rfl, rfl, rfl, ?_⟩
    show applyUpdate f c0 ∈ (setContacts db _).contacts
    rw [setContacts, hl, replaceFirst_append _ _ _ _ _ hfalse hpa]
    exact List.mem_append_right _ (List.mem_cons_self _ _)

theorem update_replaces_all_fields_witness :
    updatedContactOfA.first_name = someFields.first_name ∧
    updatedContactOfA.last_name = someFields.last_name ∧
    updatedContactOfA.email = someFields.email ∧
    updatedContactOfA.phone_number = someFields.phone_number ∧
    updatedContactOfA.birthday = someFields.birthday ∧
    updatedContactOfA.additional_info = someFields.additional_info ∧
    updatedContactOfA ∈ dbABupd.contacts :=
  update_replaces_all_fields 1 someFields dbAB userA dbABupd
    updatedContactOfA (by rfl)

/-- Claim C9: a successful update writes only the six schema fields: the
updated record keeps its id (the path id) and its owner (the caller), the
id/owner columns of every row of the contacts table are unchanged, and the
user table is untouched — an update can neither renumber a contact nor
transfer it to another owner. -/
theorem update_preserves_identity (cid : Nat) (f : ContactUpdate)
    (db : AppDB) (u : User) (db' : AppDB) (c' : Contact)
    (h : update_contact cid f db u = .ok (db', c')) :
    c'.id = cid ∧ c'.owner_id = u.id ∧
    db'.contacts.map (fun c => (c.id, c.owner_id)) =
      db.contacts.map (fun c => (c.id, c.owner_id)) ∧
    db'.users = db.users := by
  cases hf : firstOwned cid db u with
  | none =>
    rw [update_contact_none cid f db u hf] at h
    simp at h
  | some c0 =>
    rw [update_contact_some cid f db u c0 hf] at h
    simp only [Except.ok.injEq, Prod.mk.injEq] at h
    obtain ⟨hdb, hc⟩ := h
    subst hdb
    subst hc
    have hf' : db.contacts.find?
        (fun c => c.id == cid && c.owner_id == u.id) = some c0 := hf
    have hpa := List.find?_some hf'
    simp only [Bool.and_eq_true, beq_iff_eq] at hpa
    obtain ⟨l₁, l₂, hl, hfalse, hpb⟩ := find?_some_decomp _ db.contacts c0 hf'
    refine ⟨hpa.1, hpa.2, ?_, rfl⟩
    show (setContacts db _).contacts.map _ = _
    rw [setContacts, hl, replaceFirst_append _ _ _ _ _ hfalse hpb]
    simp [applyUpdate]

theorem update_preserves_identity_witness :
    updatedContactOfA.id = 1 ∧ updatedContactOfA.owner_id = userA.id ∧
    dbABupd.contacts.map (fun c => (c.id, c.owner_id)) =
      dbAB.contacts.map (fun c => (c.id, c.owner_id)) ∧
    dbABupd.users = dbAB.users :=
  update_preserves_identity 1 someFields dbAB userA dbABupd
    updatedContactOfA (by rfl)

/-- Claim C5: a successful delete of an owned contact removes exactly that
row from the stored contacts (the new table is the old one with the found row
cut out, order preserved) and returns the record in its prior state; when the
caller owns no contact with the requested id, delete returns the 404 NotFound
error value — a handled error response, not a crash. -/
theorem delete_removes_row (cid : Nat) (db : AppDB) (u : User) :
    (∀ db' c', delete_contact cid db u = .ok (db', c') →
      c'.id = cid ∧ c'.owner_id = u.id ∧
      ∃ l₁ l₂, db.contacts = l₁ ++ c' :: l₂ ∧ db'.contacts = l₁ ++ l₂) ∧
    ((∀ c ∈ db.contacts, ¬(c.id = cid ∧ c.owner_id = u.id)) →
      delete_contact cid db u = .error contactNotFound) := by
  constructor
  · intro db' c' h
    cases hf : firstOwned cid db u with
    | none =>
      rw [delete_contact_none cid db u hf] at h
      simp at h
    | some c0 =>
      rw [delete_contact_some cid db u c0 hf] at h
      simp only [Except.ok.injEq, Prod.mk.injEq] at h
      obtain ⟨hdb, hc⟩ := h
      subst hdb
      subst hc
      have hf' : db.contacts.find?
          (fun c => c.id == cid && c.owner_id == u.id) = some c0 := hf
      have hpa := List.find?_some hf'
      simp only [Bool.and_eq_true, beq_iff_eq] at hpa
      obtain ⟨l₁, l₂, hl, hfalse, hpb⟩ := find?_some_decomp _ db.contacts c0 hf'
      refine ⟨hpa.1, hpa.2, l₁, l₂, hl, ?_⟩
      show (setContacts db _).contacts = _
      rw [setContacts, hl, removeFirst_append _ _ _ _ hfalse hpb]
  · intro hnone
    have hfind : firstOwned cid db u = none := by
      rw [firstOwned, List.find?_eq_none]
      intro c hc
      simp only [Bool.and_eq_true, beq_iff_eq]
      exact hnone c hc
    exact delete_contact_none cid db u hfind

theorem delete_removes_row_witness :
    (contactOfA.id = 1 ∧ contactOfA.owner_id = userA.id ∧
      ∃ l₁ l₂, dbAB.contacts = l₁ ++ contactOfA :: l₂ ∧
        dbABdel.contacts = l₁ ++ l₂) ∧
    delete_contact 99 dbAB userA = .error contactNotFound :=
  ⟨(delete_removes_row 1 dbAB userA).1 dbABdel contactOfA (by rfl),
   (delete_removes_row 99 dbAB userA).2 (by decide)⟩

/-- Claim C6: every token issued under the configured strategy has a fixed
3600-second lifetime (its expiry claim is issuance time plus 3600), and a
token older than 3600 seconds — presented at any time strictly past issuance
plus 3600 — is rejected by the current-user resolution every protected
endpoint depends on, with the 401 Unauthorized error. -/
theorem jwt_fixed_lifetime (secret : String) (db : AppDB) (uid t₀ now : Nat) :
    (write_token (get_jwt_strategy secret) uid t₀).exp = t₀ + 3600 ∧
    (t₀ + 3600 < now →
      current_user (get_jwt_strategy secret) db
        (write_token (get_jwt_strategy secret) uid t₀) now =
        .error unauthorizedErr) := by
  refine ⟨rfl, fun hnow => ?_⟩
  have hlt : ¬ now < t₀ + 3600 := by omega
  unfold current_user read_token write_token get_jwt_strategy
  simp [hlt]

theorem jwt_fixed_lifetime_witness :
    (write_token (get_jwt_strategy "topsecret") 1 0).exp = 0 + 3600 ∧
    current_user (get_jwt_strategy "topsecret") emptyDB
      (write_token (get_jwt_strategy "topsecret") 1 0) 3601 =
      .error unauthorizedErr :=
  ⟨(jwt_fixed_lifetime "topsecret" emptyDB 1 0 3601).1,
   (jwt_fixed_lifetime "topsecret" emptyDB 1 0 3601).2 (by decide)⟩

/-- Claim C7: the avatar upload forwards the bytes to the external host,
assigns the returned URL to the user's avatar field on the in-memory object,
and returns that URL — while the database state passes through the operation
entirely unchanged (the handler has no session and never commits), so the
user's stored avatar column is not updated. -/
theorem upload_avatar_frame (user_id : Nat) (uploader : List Nat → String)
    (file : List Nat) (u : User) (db : AppDB) :
    (upload_avatar user_id uploader file u db).1.avatar =
      some (uploader file) ∧
    (upload_avatar user_id uploader file u db).2.1 = uploader file ∧
    (upload_avatar user_id uploader file u db).2.2 = db :=
  ⟨rfl, rfl, rfl⟩

/-- Claim C8: user-facing responses are serialized through output schemas
that exclude the hashed password: the UserRead serialization of a user is
unchanged when the stored password hash changes (so the hash cannot appear in
any user response), and likewise the URL returned by the avatar endpoint does
not depend on the hash. -/
theorem responses_omit_hashed_password (u : User) (hp : String)
    (user_id : Nat) (uploader : List Nat → String) (file : List Nat)
    (db : AppDB) :
    serializeUser { u with hashed_password := hp } = serializeUser u ∧
    (upload_avatar user_id uploader file
        { u with hashed_password := hp } db).2.1 =
      (upload_avatar user_id uploader file u db).2.1 :=
  ⟨rfl, rfl⟩

/-- Claim C10: every contact endpoint serializes its response through the
ContactCreate schema, which has no identifier field: the serialization of a
contact is unchanged under any change of its id (and owner id), so no contact
response reveals the row's id; in particular the Create response is exactly
the six request fields echoed back. -/
theorem contact_responses_omit_id (c : Contact) (n m : Nat)
    (f : ContactCreate) (db : AppDB) (u : User) :
    serializeContact { c with id := n, owner_id := m } = serializeContact c ∧
    serializeContact (create_contact f db u).2 = f :=
  ⟨rfl, rfl⟩

end ContactsApp
